import Mathlib

/-!
Verification of the CSV→QIF conversion core (`qif_converter.py`):
record serialization for bank and investment transactions, the
five-pattern date normalizer `convert_date`, and the batch converter
`csv_to_qif` with its per-row skip loop.

Python `float` values are modelled as exact decimals (`Dec`, an integer
numerator with a power-of-ten denominator exponent); the values the
converter handles are decimal numerals parsed from CSV text, and the
fixed-precision formatting `f"{x:.2f}"` / `f"{x:.4f}"` is modelled by
exact decimal rounding (round half to even, the rounding of float
formatting).  CSV rows and field mappings (Python dicts) are modelled as
association lists; an absent key models a `KeyError` / `dict.get`
returning `None`.
-/

instance {α β : Type} [DecidableEq α] [DecidableEq β] : DecidableEq (Except α β) :=
  fun a b =>
    match a, b with
    | .ok x, .ok y => if h : x = y then isTrue (by rw [h]) else isFalse (by simp [h])
    | .error x, .error y => if h : x = y then isTrue (by rw [h]) else isFalse (by simp [h])
    | .ok _, .error _ => isFalse (by simp)
    | .error _, .ok _ => isFalse (by simp)

/-- Exact decimal number `num / 10 ^ exp`, the model of the Python floats
handled by the converter (they are parsed from decimal CSV text). -/
structure Dec where
  num : Int
  exp : Nat
deriving DecidableEq, Repr

/-- Numeric value of a list of ASCII digit characters. -/
def digitsToNat (cs : List Char) : Nat :=
  cs.foldl (fun a c => 10 * a + (c.toNat - 48)) 0

/-- Left-pad a string with zeros to width `n`. -/
def padZeros (n : Nat) (s : String) : String :=
  String.mk (List.replicate (n - s.length) '0') ++ s

/-- `a / b` rounded to the nearest natural, ties to even (the rounding
used by Python's fixed-point float formatting). -/
def divRoundHalfEven (a b : Nat) : Nat :=
  let q := a / b
  let r := a % b
  if 2 * r < b then q
  else if b < 2 * r then q + 1
  else if q % 2 = 0 then q else q + 1

/-- Model of Python `f"{x:.prec f}"`: fixed-point rendering of a decimal
with `prec` digits after the point, sign taken from the value. -/
def formatFixed (prec : Nat) (d : Dec) : String :=
  let scaled : Nat := divRoundHalfEven (d.num.natAbs * 10 ^ prec) (10 ^ d.exp)
  let sign : String := if d.num < 0 then "-" else ""
  sign ++ toString (scaled / 10 ^ prec) ++ "." ++ padZeros prec (toString (scaled % 10 ^ prec))

/-- Parse an unsigned decimal numeral `digits[.digits]` (also `.digits`
and `digits.`), as accepted by Python `float`. -/
def parseUnsignedFloat (cs : List Char) : Option Dec :=
  let ipart := cs.takeWhile Char.isDigit
  let rest := cs.dropWhile Char.isDigit
  match rest with
  | [] => if ipart = [] then none else some ⟨digitsToNat ipart, 0⟩
  | '.' :: fpart =>
    if fpart.all Char.isDigit ∧ (ipart ≠ [] ∨ fpart ≠ []) then
      some ⟨digitsToNat ipart * 10 ^ fpart.length + digitsToNat fpart, fpart.length⟩
    else none
  | _ => none

/-- Strip leading and trailing whitespace from a character list
(Python `float` strips whitespace before parsing). -/
def trimChars (cs : List Char) : List Char :=
  ((cs.dropWhile Char.isWhitespace).reverse.dropWhile Char.isWhitespace).reverse

/-- Model of Python `float(s)` on the plain decimal forms exercised by the
converter (optional sign, digits, optional fractional part; exponent,
`inf`/`nan` and underscore forms are not modelled).  `none` models the
`ValueError` raised on unparsable text such as `"abc"` or `""`. -/
def parseFloat (s : String) : Option Dec :=
  match trimChars s.data with
  | '-' :: cs => (parseUnsignedFloat cs).map (fun d => ⟨-d.num, d.exp⟩)
  | '+' :: cs => parseUnsignedFloat cs
  | cs => parseUnsignedFloat cs

/-- Split a character list on a separator character. -/
def splitOnChar (sep : Char) : List Char → List (List Char)
  | [] => [[]]
  | c :: cs =>
    if c = sep then [] :: splitOnChar sep cs
    else
      match splitOnChar sep cs with
      | [] => [[c]]
      | p :: ps => (c :: p) :: ps

/-- Split a string into exactly three components on a separator, the shape
required by every accepted date format. -/
def split3 (sep : Char) (s : String) : Option (String × String × String) :=
  match (splitOnChar sep s.data).map String.mk with
  | [a, b, c] => some (a, b, c)
  | _ => none

/-- Gregorian leap-year test, as `datetime` validates dates. -/
def isLeapYear (y : Nat) : Bool :=
  y % 4 = 0 && (y % 100 ≠ 0 || y % 400 = 0)

/-- Days in a month of a given year, as `datetime` validates dates. -/
def daysInMonth (y m : Nat) : Nat :=
  if m = 2 then (if isLeapYear y then 29 else 28)
  else if m = 4 ∨ m = 6 ∨ m = 9 ∨ m = 11 then 30 else 31

/-- `strptime` `%Y` component: exactly four digits. -/
def matchYear (p : String) : Option Nat :=
  if p.length = 4 ∧ p.data.all Char.isDigit then some (digitsToNat p.data) else none

/-- `strptime` `%m` component: one or two digits, value 1–12. -/
def matchMonth (p : String) : Option Nat :=
  let v := digitsToNat p.data
  if (p.length = 1 ∨ p.length = 2) ∧ p.data.all Char.isDigit ∧ 1 ≤ v ∧ v ≤ 12 then some v
  else none

/-- `strptime` `%d` component: one or two digits, value 1–31. -/
def matchDay (p : String) : Option Nat :=
  let v := digitsToNat p.data
  if (p.length = 1 ∨ p.length = 2) ∧ p.data.all Char.isDigit ∧ 1 ≤ v ∧ v ≤ 31 then some v
  else none

/-- Calendar validation performed by the `datetime` constructor:
year at least 1 and the day within the month. -/
def mkValidDate (y m d : Nat) : Option (Nat × Nat × Nat) :=
  if 1 ≤ y ∧ 1 ≤ d ∧ d ≤ daysInMonth y m then some (y, m, d) else none

/-- The five `strptime` formats tried by `convert_date`, in source order:
`%Y-%m-%d`, `%m/%d/%Y`, `%d/%m/%Y`, `%Y/%m/%d`, `%d-%m-%Y`. -/
inductive DatePattern
  | ymdDash
  | mdySlash
  | dmySlash
  | ymdSlash
  | dmyDash
deriving DecidableEq, Repr

/-- One `strptime(date_str, fmt)` attempt: matches the separator layout and
component shapes of the format, then validates the calendar date; the
result is `(year, month, day)`. -/
def tryPattern (p : DatePattern) (s : String) : Option (Nat × Nat × Nat) :=
  match p with
  | .ymdDash => do
    let (a, b, c) ← split3 '-' s
    let y ← matchYear a
    let m ← matchMonth b
    let d ← matchDay c
    mkValidDate y m d
  | .mdySlash => do
    let (a, b, c) ← split3 '/' s
    let m ← matchMonth a
    let d ← matchDay b
    let y ← matchYear c
    mkValidDate y m d
  | .dmySlash => do
    let (a, b, c) ← split3 '/' s
    let d ← matchDay a
    let m ← matchMonth b
    let y ← matchYear c
    mkValidDate y m d
  | .ymdSlash => do
    let (a, b, c) ← split3 '/' s
    let y ← matchYear a
    let m ← matchMonth b
    let d ← matchDay c
    mkValidDate y m d
  | .dmyDash => do
    let (a, b, c) ← split3 '-' s
    let d ← matchDay a
    let m ← matchMonth b
    let y ← matchYear c
    mkValidDate y m d

/-- The try order of `convert_date`, from the source tuple of formats. -/
def datePatterns : List DatePattern :=
  [.ymdDash, .mdySlash, .dmySlash, .ymdSlash, .dmyDash]

/-- Two-digit zero padding, as in `strftime` `%m` and `%d`. -/
def pad2 (n : Nat) : String :=
  if n < 10 then "0" ++ toString n else toString n

/-- `strftime('%m/%d/%Y')` applied to a parsed `(year, month, day)`. -/
def formatMMDDYYYY (ymd : Nat × Nat × Nat) : String :=
  pad2 ymd.2.1 ++ "/" ++ pad2 ymd.2.2 ++ "/" ++ padZeros 4 (toString ymd.1)

/-- `convert_date`: try the five formats in order, return the first parse
reformatted as `MM/DD/YYYY`; otherwise the `ValueError` message raised by
the source (the inner "Unsupported date format" error wrapped by the
outer handler), carrying the offending string. -/
def convert_date (s : String) : Except String String :=
  match tryPattern .ymdDash s with
  | some ymd => .ok (formatMMDDYYYY ymd)
  | none =>
    match tryPattern .mdySlash s with
    | some ymd => .ok (formatMMDDYYYY ymd)
    | none =>
      match tryPattern .dmySlash s with
      | some ymd => .ok (formatMMDDYYYY ymd)
      | none =>
        match tryPattern .ymdSlash s with
        | some ymd => .ok (formatMMDDYYYY ymd)
        | none =>
          match tryPattern .dmyDash s with
          | some ymd => .ok (formatMMDDYYYY ymd)
          | none =>
            .error ("Error converting date " ++ s ++ ": Unsupported date format: " ++ s)

/-- Python truthiness of an `Optional[str]`: `None` and `""` are falsy. -/
def strTruthy : Option String → Bool
  | none => false
  | some s => !(s == "")

/-- Python truthiness of an `Optional[float]`: `None` and `0.0` are falsy. -/
def numTruthy : Option Dec → Bool
  | none => false
  | some d => !(d.num == 0)

/-- `QIFTransaction` (bank/cash): `date` and `amount` required, the rest
optional strings defaulting to `None`. -/
structure QIFTransaction where
  date : String
  amount : Dec
  payee : Option String := none
  memo : Option String := none
  category : Option String := none
  check_num : Option String := none
deriving DecidableEq, Repr

/-- `QIFInvestmentTransaction`: `date` and `action` required, the rest
optional, defaulting to `None`. -/
structure QIFInvestmentTransaction where
  date : String
  action : String
  security : Option String := none
  price : Option Dec := none
  quantity : Option Dec := none
  commission : Option Dec := none
  memo : Option String := none
  amount : Option Dec := none
  account : Option String := none
deriving DecidableEq, Repr

/-- A line appended under `if self.field:` for an optional string field
(Python truthiness: absent when `None` or `""`). -/
def optStrSeg (tag : String) : Option String → List String
  | none => []
  | some s => if s = "" then [] else [tag ++ s]

/-- A line appended under `if self.field is not None:` for an optional
numeric field, formatted to `prec` decimals. -/
def optNumSeg (tag : String) (prec : Nat) : Option Dec → List String
  | none => []
  | some d => [tag ++ formatFixed prec d]

/-- The commission line, appended under `if self.commission:`
(Python truthiness: absent when `None` or exactly `0`). -/
def commSeg : Option Dec → List String
  | none => []
  | some c => if c.num = 0 then [] else ["O" ++ formatFixed 2 c]

/-- The transfer-account line `L[account]`, appended under
`if self.account:`. -/
def acctSeg : Option String → List String
  | none => []
  | some a => if a = "" then [] else ["L[" ++ (a ++ "]")]

/-- The lines list built by `QIFTransaction.to_qif`, in source order:
`D`, `T`, then `P`/`M`/`L`/`N` conditionally, then `^`. -/
def QIFTransaction.qifLines (t : QIFTransaction) : List String :=
  ["D" ++ t.date, "T" ++ formatFixed 2 t.amount]
    ++ optStrSeg "P" t.payee ++ optStrSeg "M" t.memo
    ++ optStrSeg "L" t.category ++ optStrSeg "N" t.check_num ++ ["^"]

/-- Join a list of lines with a separator, as `"\n".join(lines)`. -/
def joinWith (sep : String) : List String → String
  | [] => ""
  | [x] => x
  | x :: y :: ys => x ++ sep ++ joinWith sep (y :: ys)

/-- `QIFTransaction.to_qif`. -/
def QIFTransaction.to_qif (t : QIFTransaction) : String :=
  joinWith "\n" t.qifLines

/-- The lines list built by `QIFInvestmentTransaction.to_qif`, in source
order: `D`, `N`, then `Y`/`I`/`Q`/`O`/`T`/`L`/`M` conditionally, then `^`. -/
def QIFInvestmentTransaction.qifLines (t : QIFInvestmentTransaction) : List String :=
  ["D" ++ t.date, "N" ++ t.action]
    ++ optStrSeg "Y" t.security ++ optNumSeg "I" 4 t.price ++ optNumSeg "Q" 4 t.quantity
    ++ commSeg t.commission ++ optNumSeg "T" 2 t.amount ++ acctSeg t.account
    ++ optStrSeg "M" t.memo ++ ["^"]

/-- `QIFInvestmentTransaction.to_qif`. -/
def QIFInvestmentTransaction.to_qif (t : QIFInvestmentTransaction) : String :=
  joinWith "\n" t.qifLines

/-- The tag of a QIF line: its first character. -/
def tagIs (c : Char) (l : String) : Bool :=
  l.data.head? == some c

/-- Whether some line of the block carries tag `c`. -/
def hasTag (c : Char) (ls : List String) : Bool :=
  ls.any (tagIs c)

/-- A CSV row as produced by `csv.DictReader`: column header → raw text. -/
abbrev CsvRow := List (String × String)

/-- The field mapping: logical field name → CSV column header. -/
abbrev FieldMapping := List (String × String)

/-- The QIF type header constants of the source `QIFType` enum. -/
inductive QIFType
  | bank
  | cash
  | investment
  | credit
  | asset
  | liability
deriving DecidableEq, Repr

/-- The `value` of each `QIFType` member. -/
def QIFType.value : QIFType → String
  | .bank => "!Type:Bank"
  | .cash => "!Type:Cash"
  | .investment => "!Type:Invst"
  | .credit => "!Type:CCard"
  | .asset => "!Type:Oth A"
  | .liability => "!Type:Oth L"

/-- One numeric cell read under `float(row[col]) if row.get(col) else None`:
an absent column or empty text is `None`; otherwise the text must parse,
a parse failure (`ValueError`) skipping the row (outer `none`). -/
def optFloatOfCell (cell : Option String) : Option (Option Dec) :=
  match cell with
  | none => some none
  | some v =>
    if v = "" then some none
    else
      match parseFloat v with
      | none => none
      | some d => some (some d)

/-- A numeric field guarded by `'key' in mapping` (used for `commission`
and `amount`): an unmapped key yields `None` instead of a `KeyError`. -/
def numFieldGuarded (mapping : FieldMapping) (row : CsvRow) (key : String) :
    Option (Option Dec) :=
  match List.lookup key mapping with
  | none => some none
  | some col => optFloatOfCell (List.lookup col row)

/-- An optional string field `row[mapping[key]] if key in mapping else None`:
an unmapped key yields `None`; a mapped key whose column is missing from
the row raises `KeyError` (outer `none`, skipping the row). -/
def strField (mapping : FieldMapping) (row : CsvRow) (key : String) :
    Option (Option String) :=
  match List.lookup key mapping with
  | none => some none
  | some col => (List.lookup col row).map some

/-- Build the investment record for one CSV row, mirroring the `try` body:
`price` and `quantity` are read through `mapping['price']` /
`mapping['quantity']` unconditionally (a missing mapping key is a
`KeyError`, hence a skip), `commission` and `amount` are guarded by
`in mapping`; then the date is normalized and `action`/`security` are
indexed from the row.  `none` models a caught `ValueError`/`KeyError`
(the row is skipped). -/
def convertInvestmentRow (mapping : FieldMapping) (row : CsvRow) :
    Option QIFInvestmentTransaction := do
  let pcol ← List.lookup "price" mapping
  let price ← optFloatOfCell (List.lookup pcol row)
  let qcol ← List.lookup "quantity" mapping
  let quantity ← optFloatOfCell (List.lookup qcol row)
  let commission ← numFieldGuarded mapping row "commission"
  let amount ← numFieldGuarded mapping row "amount"
  let dcol ← List.lookup "date" mapping
  let draw ← List.lookup dcol row
  let date ← (convert_date draw).toOption
  let acol ← List.lookup "action" mapping
  let action ← List.lookup acol row
  let scol ← List.lookup "security" mapping
  let security ← List.lookup scol row
  let memo ← strField mapping row "memo"
  pure (QIFInvestmentTransaction.mk date action (some security) price quantity commission
    memo amount none)

/-- Build the bank record for one CSV row, mirroring the `else` branch:
the date is normalized, `amount` is `float(row[mapping['amount']])`
(unguarded: missing column or bad text skips the row), and the optional
string fields are read if mapped. -/
def convertBankRow (mapping : FieldMapping) (row : CsvRow) : Option QIFTransaction := do
  let dcol ← List.lookup "date" mapping
  let draw ← List.lookup dcol row
  let date ← (convert_date draw).toOption
  let acol ← List.lookup "amount" mapping
  let araw ← List.lookup acol row
  let amount ← parseFloat araw
  let payee ← strField mapping row "payee"
  let memo ← strField mapping row "memo"
  let category ← strField mapping row "category"
  let check_num ← strField mapping row "check_num"
  pure (QIFTransaction.mk date amount payee memo category check_num)

/-- Process one row: the chunk `transaction.to_qif() + "\n"` appended by
`QIFWriter.write_transaction`, or `none` when the row is skipped. -/
def processRow (ttype : String) (mapping : FieldMapping) (row : CsvRow) : Option String :=
  if ttype = "investment" then
    (convertInvestmentRow mapping row).map (fun t => t.to_qif ++ "\n")
  else
    (convertBankRow mapping row).map (fun t => t.to_qif ++ "\n")

/-- The required mapping fields per transaction type. -/
def required_fields (ttype : String) : List String :=
  if ttype = "investment" then ["date", "action", "security"] else ["date", "amount"]

/-- The `missing_fields` list computed by `csv_to_qif`. -/
def requiredMissing (ttype : String) (mapping : FieldMapping) : List String :=
  (required_fields ttype).filter (fun f => (List.lookup f mapping).isNone)

/-- The per-row loop of `csv_to_qif`: thread the destination file content
(every write appends, the files being opened in append mode) and collect
the skipped rows (each printed with a diagnostic in the source). -/
def convertLoop (ttype : String) (mapping : FieldMapping) :
    List CsvRow → String → String × List CsvRow
  | [], file => (file, [])
  | r :: rs, file =>
    match processRow ttype mapping r with
    | some chunk => convertLoop ttype mapping rs (file ++ chunk)
    | none =>
      match convertLoop ttype mapping rs file with
      | (f, sk) => (f, r :: sk)

/-- The outcome of one `csv_to_qif` call: the raised error if any, the
destination file content afterwards, and the rows skipped with a
diagnostic. -/
structure ConvOutcome where
  result : Except String Unit
  file : String
  skipped : List CsvRow
deriving DecidableEq, Repr

/-- `csv_to_qif(csv_file, qif_file, transaction_type, mapping)` acting on a
destination whose current content is `file0`: validate the mapping
(raising `KeyError` before anything is written), then write the type
header once and one serialized record per successfully processed row, in
input row order. -/
def csv_to_qif (rows : List CsvRow) (ttype : String) (mapping : FieldMapping)
    (file0 : String) : ConvOutcome :=
  let missing := requiredMissing ttype mapping
  if missing = [] then
    let qt := if ttype = "investment" then QIFType.investment else QIFType.bank
    let file1 := file0 ++ (qt.value ++ "\n")
    match convertLoop ttype mapping rows file1 with
    | (f, sk) => ⟨Except.ok (), f, sk⟩
  else
    ⟨Except.error ("Missing required fields in mapping: " ++ joinWith ", " missing),
      file0, []⟩

/-- Concatenation of the chunks written by the loop. -/
def concatChunks : List String → String
  | [] => ""
  | c :: cs => c ++ concatChunks cs

/-- The default investment mapping of the source's example usage
(also the spec's end-to-end scenario). -/
def exMapping : FieldMapping :=
  [("date", "Trade Date"), ("action", "Transaction Type"), ("security", "Symbol"),
   ("price", "Price"), ("quantity", "Quantity"), ("commission", "Commission"),
   ("memo", "Notes")]

/-- The spec's end-to-end row:
`Buy,2024-01-15,AAPL,185.92,10,4.95,Initial position`. -/
def exGoodRow : CsvRow :=
  [("Transaction Type", "Buy"), ("Trade Date", "2024-01-15"), ("Symbol", "AAPL"),
   ("Price", "185.92"), ("Quantity", "10"), ("Commission", "4.95"),
   ("Notes", "Initial position")]

/-- The same row with an unparsable price column `"abc"`. -/
def exBadRow : CsvRow :=
  [("Transaction Type", "Buy"), ("Trade Date", "2024-01-15"), ("Symbol", "AAPL"),
   ("Price", "abc"), ("Quantity", "10"), ("Commission", "4.95"),
   ("Notes", "Initial position")]

/-- A record whose `security` is the empty string: non-null, yet serialized
with no `Y` line. -/
def emptySecurityRecord : QIFInvestmentTransaction :=
  ⟨"01/01/2024", "Buy", some "", none, none, none, none, none, none⟩

/-- An investment mapping with `date`, `action`, `security`, `quantity`
mapped but no `price` key. -/
def priceUnmappedMapping : FieldMapping :=
  [("date", "Date"), ("action", "Action"), ("security", "Symbol"), ("quantity", "Qty")]

/-- A well-formed row for `priceUnmappedMapping`: every mapped column
present, the date normalizable and the quantity numeric. -/
def wellFormedRow : CsvRow :=
  [("Date", "2024-01-15"), ("Action", "Buy"), ("Symbol", "AAPL"), ("Qty", "10")]

example : convert_date "2024-01-15" = .ok "01/15/2024" := by decide
example : convert_date "01/02/2024" = .ok "01/02/2024" := by decide
example : convert_date "invalid" =
    .error "Error converting date invalid: Unsupported date format: invalid" := by decide
example : parseFloat "185.92" = some ⟨18592, 2⟩ := by decide
example : parseFloat "abc" = none := by decide
example : formatFixed 2 ⟨-123456, 2⟩ = "-1234.56" := by decide
example : formatFixed 4 ⟨10, 0⟩ = "10.0000" := by decide
example : formatFixed 4 ⟨18592, 2⟩ = "185.9200" := by decide

example :
    QIFTransaction.to_qif ⟨"01/15/2024", ⟨-123456, 2⟩, some "Test Payee", some "Test memo",
      some "Expenses:Test", some "1001"⟩ =
    "D01/15/2024\nT-1234.56\nPTest Payee\nMTest memo\nLExpenses:Test\nN1001\n^" := by decide
example :
    QIFInvestmentTransaction.qifLines
      ⟨"01/15/2024", "Buy", some "AAPL", some ⟨18592, 2⟩, some ⟨10, 0⟩, some ⟨495, 2⟩,
        some "Initial position", none, none⟩ =
    ["D01/15/2024", "NBuy", "YAAPL", "I185.9200", "Q10.0000", "O4.95", "MInitial position", "^"] := by
  decide
example :
    QIFInvestmentTransaction.qifLines ⟨"01/15/2024", "Buy", some "", none, none, some ⟨0, 0⟩,
      none, none, none⟩ = ["D01/15/2024", "NBuy", "^"] := by decide

theorem str_data_append (a b : String) : (a ++ b).data = a.data ++ b.data := by
  cases a; cases b; rfl

theorem tagIs_append (c : Char) (a s : String) (h : a.data ≠ []) :
    tagIs c (a ++ s) = tagIs c a := by
  unfold tagIs
  rw [str_data_append]
  cases had : a.data with
  | nil => exact absurd had h
  | cons x xs => simp

theorem tagIs_D (c : Char) (s : String) : tagIs c ("D" ++ s) = ('D' == c) := by cases s; rfl

theorem tagIs_N (c : Char) (s : String) : tagIs c ("N" ++ s) = ('N' == c) := by cases s; rfl

theorem tagIs_T (c : Char) (s : String) : tagIs c ("T" ++ s) = ('T' == c) := by cases s; rfl

theorem tagIs_caret (c : Char) : tagIs c "^" = ('^' == c) := rfl

theorem hasTag_nil (c : Char) : hasTag c [] = false := rfl

theorem hasTag_cons (c : Char) (x : String) (ls : List String) :
    hasTag c (x :: ls) = (tagIs c x || hasTag c ls) := rfl

theorem hasTag_append (c : Char) (a b : List String) :
    hasTag c (a ++ b) = (hasTag c a || hasTag c b) := by
  simp [hasTag, List.any_append]

theorem hasTag_optStrSeg (c : Char) (tg : String) (h : tg.data ≠ []) (v : Option String) :
    hasTag c (optStrSeg tg v) = (strTruthy v && tagIs c tg) := by
  cases v with
  | none => simp [optStrSeg, hasTag, strTruthy]
  | some s =>
    by_cases hs : s = "" <;>
      simp [optStrSeg, hasTag, strTruthy, hs, tagIs_append c tg s h]

theorem hasTag_optNumSeg (c : Char) (tg : String) (h : tg.data ≠ []) (prec : Nat)
    (v : Option Dec) : hasTag c (optNumSeg tg prec v) = (v.isSome && tagIs c tg) := by
  cases v with
  | none => simp [optNumSeg, hasTag]
  | some d => simp [optNumSeg, hasTag, tagIs_append c tg _ h]

theorem hasTag_commSeg (c : Char) (v : Option Dec) :
    hasTag c (commSeg v) = (numTruthy v && tagIs c "O") := by
  cases v with
  | none => simp [commSeg, hasTag, numTruthy]
  | some d =>
    by_cases hz : d.num = 0 <;>
      simp [commSeg, hasTag, numTruthy, hz, tagIs_append c "O" _ (by decide)]

theorem hasTag_acctSeg (c : Char) (v : Option String) :
    hasTag c (acctSeg v) = (strTruthy v && tagIs c "L[") := by
  cases v with
  | none => simp [acctSeg, hasTag, strTruthy]
  | some a =>
    by_cases ha : a = "" <;>
      simp [acctSeg, hasTag, strTruthy, ha, tagIs_append c "L[" (a ++ "]") (by decide)]

theorem optStrSeg_sublist (tg : String) (v : Option String) :
    List.Sublist (optStrSeg tg v) [tg ++ v.getD ""] := by
  cases v with
  | none => exact List.nil_sublist _
  | some s =>
    by_cases hs : s = ""
    · simp [optStrSeg, hs]
    · simp only [optStrSeg, if_neg hs, Option.getD_some]
      exact List.Sublist.refl _

theorem optNumSeg_sublist (tg : String) (prec : Nat) (v : Option Dec) :
    List.Sublist (optNumSeg tg prec v) [tg ++ formatFixed prec (v.getD ⟨0, 0⟩)] := by
  cases v with
  | none => exact List.nil_sublist _
  | some d => exact List.Sublist.refl _

theorem commSeg_sublist (v : Option Dec) :
    List.Sublist (commSeg v) ["O" ++ formatFixed 2 (v.getD ⟨0, 0⟩)] := by
  cases v with
  | none => exact List.nil_sublist _
  | some d =>
    by_cases hz : d.num = 0
    · simp [commSeg, hz]
    · simp only [commSeg, if_neg hz, Option.getD_some]
      exact List.Sublist.refl _

theorem acctSeg_sublist (v : Option String) :
    List.Sublist (acctSeg v) ["L[" ++ (v.getD "" ++ "]")] := by
  cases v with
  | none => exact List.nil_sublist _
  | some a =>
    by_cases ha : a = ""
    · simp [acctSeg, ha]
    · simp only [acctSeg, if_neg ha, Option.getD_some]
      exact List.Sublist.refl _

example :
    csv_to_qif [exGoodRow, exBadRow] "investment" exMapping "" =
      ⟨Except.ok (),
        "!Type:Invst\nD01/15/2024\nNBuy\nYAAPL\nI185.9200\nQ10.0000\nO4.95\nMInitial position\n^\n",
        [exBadRow]⟩ := by decide
example :
    csv_to_qif [exGoodRow] "cash"
      [("date", "Trade Date"), ("amount", "Price"), ("memo", "Notes")] "" =
      ⟨Except.ok (), "!Type:Bank\nD01/15/2024\nT185.92\nMInitial position\n^\n", []⟩ := by
  decide
example :
    csv_to_qif [exGoodRow] "investment" [("date", "Trade Date"), ("action", "Transaction Type")]
      "seed" =
      ⟨Except.error "Missing required fields in mapping: security", "seed", []⟩ := by decide

theorem hasTag_segY (c : Char) (v : Option String) :
    hasTag c (optStrSeg "Y" v) = (strTruthy v && ('Y' == c)) := by
  rw [hasTag_optStrSeg c "Y" (by decide) v]; rfl

theorem hasTag_segM (c : Char) (v : Option String) :
    hasTag c (optStrSeg "M" v) = (strTruthy v && ('M' == c)) := by
  rw [hasTag_optStrSeg c "M" (by decide) v]; rfl

theorem hasTag_segP (c : Char) (v : Option String) :
    hasTag c (optStrSeg "P" v) = (strTruthy v && ('P' == c)) := by
  rw [hasTag_optStrSeg c "P" (by decide) v]; rfl

theorem hasTag_segL (c : Char) (v : Option String) :
    hasTag c (optStrSeg "L" v) = (strTruthy v && ('L' == c)) := by
  rw [hasTag_optStrSeg c "L" (by decide) v]; rfl

theorem hasTag_segN (c : Char) (v : Option String) :
    hasTag c (optStrSeg "N" v) = (strTruthy v && ('N' == c)) := by
  rw [hasTag_optStrSeg c "N" (by decide) v]; rfl

theorem hasTag_numI (c : Char) (v : Option Dec) :
    hasTag c (optNumSeg "I" 4 v) = (v.isSome && ('I' == c)) := by
  rw [hasTag_optNumSeg c "I" (by decide) 4 v]; rfl

theorem hasTag_numQ (c : Char) (v : Option Dec) :
    hasTag c (optNumSeg "Q" 4 v) = (v.isSome && ('Q' == c)) := by
  rw [hasTag_optNumSeg c "Q" (by decide) 4 v]; rfl

theorem hasTag_numT (c : Char) (v : Option Dec) :
    hasTag c (optNumSeg "T" 2 v) = (v.isSome && ('T' == c)) := by
  rw [hasTag_optNumSeg c "T" (by decide) 2 v]; rfl

theorem hasTag_commO (c : Char) (v : Option Dec) :
    hasTag c (commSeg v) = (numTruthy v && ('O' == c)) := by
  rw [hasTag_commSeg c v]; rfl

theorem hasTag_acctL (c : Char) (v : Option String) :
    hasTag c (acctSeg v) = (strTruthy v && ('L' == c)) := by
  rw [hasTag_acctSeg c v]; rfl

/-- C1 (corrected): for every investment transaction, the serialized block
ends with a lone `^`, `D<date>` and `N<action>` are always the first two
lines in that order, the numeric field-lines `I`/`Q`/`T` are present iff
the attribute is non-null, the `O` line iff the commission is non-null and
non-zero, and — the amendment — the string field-lines `Y`/`L`/`M` are
present iff the attribute is non-null AND non-empty (truthiness, not a
null check); all lines occur in the fixed order `D,N,Y,I,Q,O,T,L,M,^`
(stated as a sublist of the full line sequence, which also makes each line
occur at most once). -/
theorem investment_toQif_block_structure (t : QIFInvestmentTransaction) :
    (∃ rest, t.qifLines = ("D" ++ t.date) :: ("N" ++ t.action) :: rest)
    ∧ t.qifLines.getLast? = some "^"
    ∧ hasTag 'Y' t.qifLines = strTruthy t.security
    ∧ hasTag 'I' t.qifLines = t.price.isSome
    ∧ hasTag 'Q' t.qifLines = t.quantity.isSome
    ∧ hasTag 'O' t.qifLines = numTruthy t.commission
    ∧ hasTag 'T' t.qifLines = t.amount.isSome
    ∧ hasTag 'L' t.qifLines = strTruthy t.account
    ∧ hasTag 'M' t.qifLines = strTruthy t.memo
    ∧ List.Sublist t.qifLines
        ["D" ++ t.date, "N" ++ t.action, "Y" ++ t.security.getD "",
         "I" ++ formatFixed 4 (t.price.getD ⟨0, 0⟩),
         "Q" ++ formatFixed 4 (t.quantity.getD ⟨0, 0⟩),
         "O" ++ formatFixed 2 (t.commission.getD ⟨0, 0⟩),
         "T" ++ formatFixed 2 (t.amount.getD ⟨0, 0⟩),
         "L[" ++ (t.account.getD "" ++ "]"), "M" ++ t.memo.getD "", "^"] := by
  obtain ⟨dt, act, sec, pr, qt, cm, me, am, ac⟩ := t
  have hlast : ∀ (l : List String), (l ++ ["^"]).getLast? = some "^" := fun l => by
    simp [List.getLast?_concat]
  refine ⟨⟨_, rfl⟩, hlast _, ?_, ?_, ?_, ?_, ?_, ?_, ?_, ?_⟩
  · simp [QIFInvestmentTransaction.qifLines, hasTag_append, hasTag_cons, hasTag_nil,
      hasTag_segY, hasTag_segM, hasTag_numI, hasTag_numQ, hasTag_numT, hasTag_commO,
      hasTag_acctL, tagIs_D, tagIs_N, tagIs_caret]
  · simp [QIFInvestmentTransaction.qifLines, hasTag_append, hasTag_cons, hasTag_nil,
      hasTag_segY, hasTag_segM, hasTag_numI, hasTag_numQ, hasTag_numT, hasTag_commO,
      hasTag_acctL, tagIs_D, tagIs_N, tagIs_caret]
  · simp [QIFInvestmentTransaction.qifLines, hasTag_append, hasTag_cons, hasTag_nil,
      hasTag_segY, hasTag_segM, hasTag_numI, hasTag_numQ, hasTag_numT, hasTag_commO,
      hasTag_acctL, tagIs_D, tagIs_N, tagIs_caret]
  · simp [QIFInvestmentTransaction.qifLines, hasTag_append, hasTag_cons, hasTag_nil,
      hasTag_segY, hasTag_segM, hasTag_numI, hasTag_numQ, hasTag_numT, hasTag_commO,
      hasTag_acctL, tagIs_D, tagIs_N, tagIs_caret]
  · simp [QIFInvestmentTransaction.qifLines, hasTag_append, hasTag_cons, hasTag_nil,
      hasTag_segY, hasTag_segM, hasTag_numI, hasTag_numQ, hasTag_numT, hasTag_commO,
      hasTag_acctL, tagIs_D, tagIs_N, tagIs_caret]
  · simp [QIFInvestmentTransaction.qifLines, hasTag_append, hasTag_cons, hasTag_nil,
      hasTag_segY, hasTag_segM, hasTag_numI, hasTag_numQ, hasTag_numT, hasTag_commO,
      hasTag_acctL, tagIs_D, tagIs_N, tagIs_caret]
  · simp [QIFInvestmentTransaction.qifLines, hasTag_append, hasTag_cons, hasTag_nil,
      hasTag_segY, hasTag_segM, hasTag_numI, hasTag_numQ, hasTag_numT, hasTag_commO,
      hasTag_acctL, tagIs_D, tagIs_N, tagIs_caret]
  · exact List.Sublist.append
      (List.Sublist.append
        (List.Sublist.append
          (List.Sublist.append
            (List.Sublist.append
              (List.Sublist.append
                (List.Sublist.append
                  (List.Sublist.append (List.Sublist.refl ["D" ++ dt, "N" ++ act])
                    (optStrSeg_sublist "Y" sec))
                  (optNumSeg_sublist "I" 4 pr))
                (optNumSeg_sublist "Q" 4 qt))
              (commSeg_sublist cm))
            (optNumSeg_sublist "T" 2 am))
          (acctSeg_sublist ac))
        (optStrSeg_sublist "M" me))
      (List.Sublist.refl ["^"])

/-- C1 counterexample: a record with `security = ""` has a non-null
`security` attribute, but its serialized block is only
`D`, `N`, `^` — no `Y` line — because the source checks truthiness
(`if self.security:`), not nullness.  The claim's "present iff the
corresponding attribute is non-null" is therefore false for `Y`. -/
theorem investment_empty_security_line_cex :
    emptySecurityRecord.security = some ""
    ∧ emptySecurityRecord.qifLines = ["D01/01/2024", "NBuy", "^"]
    ∧ hasTag 'Y' emptySecurityRecord.qifLines = false := by decide

/-- C6 (confirmed): the `O<commission, 2 decimals>` line is emitted iff the
commission is non-null AND non-zero: a commission of exactly 0 (or `None`)
produces no `O` line (`if self.commission:` truthiness), and a non-null
non-zero commission produces exactly the line `O` followed by the 2-decimal
rendering. -/
theorem investment_commission_falsy_zero :
    (∀ t : QIFInvestmentTransaction, hasTag 'O' t.qifLines = numTruthy t.commission)
    ∧ (∀ (t : QIFInvestmentTransaction) (c : Dec), t.commission = some c → c.num ≠ 0 →
        ("O" ++ formatFixed 2 c) ∈ t.qifLines)
    ∧ (∀ (t : QIFInvestmentTransaction) (k : Nat), t.commission = some ⟨0, k⟩ →
        hasTag 'O' t.qifLines = false) := by
  refine ⟨?_, ?_, ?_⟩
  · intro t
    obtain ⟨dt, act, sec, pr, qt, cm, me, am, ac⟩ := t
    simp [QIFInvestmentTransaction.qifLines, hasTag_append, hasTag_cons, hasTag_nil,
      hasTag_segY, hasTag_segM, hasTag_numI, hasTag_numQ, hasTag_numT, hasTag_commO,
      hasTag_acctL, tagIs_D, tagIs_N, tagIs_caret]
  · intro t c hc hz
    obtain ⟨dt, act, sec, pr, qt, cm, me, am, ac⟩ := t
    simp only at hc
    subst hc
    simp [QIFInvestmentTransaction.qifLines, commSeg, if_neg hz]
  · intro t k hc
    obtain ⟨dt, act, sec, pr, qt, cm, me, am, ac⟩ := t
    simp only at hc
    subst hc
    simp [QIFInvestmentTransaction.qifLines, hasTag_append, hasTag_cons, hasTag_nil,
      hasTag_segY, hasTag_segM, hasTag_numI, hasTag_numQ, hasTag_numT, hasTag_commO,
      hasTag_acctL, tagIs_D, tagIs_N, tagIs_caret, numTruthy]

/-- C6 witness: a concrete commission of 4.95 yields the line `O4.95`. -/
theorem investment_commission_falsy_zero_witness :
    ("O" ++ formatFixed 2 ⟨495, 2⟩) ∈
      (QIFInvestmentTransaction.mk "01/15/2024" "Buy" (some "AAPL") none none (some ⟨495, 2⟩)
        none none none).qifLines :=
  investment_commission_falsy_zero.2.1 _ ⟨495, 2⟩ rfl (by decide)

/-- C8 (confirmed): every bank/cash record serializes as `D<date>`,
`T<amount, 2 decimals, sign preserved>` as the first two lines, then
`P`/`M`/`L`/`N` lines each conditionally on presence, then `^`, in that
fixed order; and the concrete record of the claim
(`amount = -1234.56`, payee "Test Payee", memo "Test memo", category
"Expenses:Test", check number "1001") serializes to exactly the lines
`D<date>`, `T-1234.56`, `PTest Payee`, `MTest memo`, `LExpenses:Test`,
`N1001`, `^`.  (`⟨-123456, 2⟩` is the decimal −1234.56.) -/
theorem bank_toQif_block_structure :
    (∀ t : QIFTransaction,
      (∃ rest, t.qifLines = ("D" ++ t.date) :: ("T" ++ formatFixed 2 t.amount) :: rest)
      ∧ t.qifLines.getLast? = some "^"
      ∧ hasTag 'P' t.qifLines = strTruthy t.payee
      ∧ hasTag 'M' t.qifLines = strTruthy t.memo
      ∧ hasTag 'L' t.qifLines = strTruthy t.category
      ∧ hasTag 'N' t.qifLines = strTruthy t.check_num
      ∧ List.Sublist t.qifLines
          ["D" ++ t.date, "T" ++ formatFixed 2 t.amount, "P" ++ t.payee.getD "",
           "M" ++ t.memo.getD "", "L" ++ t.category.getD "", "N" ++ t.check_num.getD "", "^"])
    ∧ (∀ d : String,
        (QIFTransaction.mk d ⟨-123456, 2⟩ (some "Test Payee") (some "Test memo")
          (some "Expenses:Test") (some "1001")).qifLines =
        ["D" ++ d, "T-1234.56", "PTest Payee", "MTest memo", "LExpenses:Test", "N1001", "^"]) := by
  constructor
  · intro t
    obtain ⟨dt, am, pa, me, ca, cn⟩ := t
    have hlast : ∀ (l : List String), (l ++ ["^"]).getLast? = some "^" := fun l => by
      simp [List.getLast?_concat]
    refine ⟨⟨_, rfl⟩, hlast _, ?_, ?_, ?_, ?_, ?_⟩
    · simp [QIFTransaction.qifLines, hasTag_append, hasTag_cons, hasTag_nil,
        hasTag_segP, hasTag_segM, hasTag_segL, hasTag_segN, tagIs_D, tagIs_T, tagIs_caret]
    · simp [QIFTransaction.qifLines, hasTag_append, hasTag_cons, hasTag_nil,
        hasTag_segP, hasTag_segM, hasTag_segL, hasTag_segN, tagIs_D, tagIs_T, tagIs_caret]
    · simp [QIFTransaction.qifLines, hasTag_append, hasTag_cons, hasTag_nil,
        hasTag_segP, hasTag_segM, hasTag_segL, hasTag_segN, tagIs_D, tagIs_T, tagIs_caret]
    · simp [QIFTransaction.qifLines, hasTag_append, hasTag_cons, hasTag_nil,
        hasTag_segP, hasTag_segM, hasTag_segL, hasTag_segN, tagIs_D, tagIs_T, tagIs_caret]
    · exact List.Sublist.append
        (List.Sublist.append
          (List.Sublist.append
            (List.Sublist.append
              (List.Sublist.append
                (List.Sublist.refl ["D" ++ dt, "T" ++ formatFixed 2 am])
                (optStrSeg_sublist "P" pa))
              (optStrSeg_sublist "M" me))
            (optStrSeg_sublist "L" ca))
          (optStrSeg_sublist "N" cn))
        (List.Sublist.refl ["^"])
  · intro d
    have hfmt : formatFixed 2 (⟨-123456, 2⟩ : Dec) = "-1234.56" := by decide
    simp [QIFTransaction.qifLines, optStrSeg, hfmt]

/-- C10 (confirmed, implicit claim): an optional string attribute that is
the empty string serializes exactly like an absent (`None`) one — the
presence checks are Python truthiness checks.  Stated for each optional
string field of both record kinds. -/
theorem empty_string_fields_as_absent :
    (∀ dt am me ca cn, (QIFTransaction.mk dt am (some "") me ca cn).qifLines =
        (QIFTransaction.mk dt am none me ca cn).qifLines)
    ∧ (∀ dt am pa ca cn, (QIFTransaction.mk dt am pa (some "") ca cn).qifLines =
        (QIFTransaction.mk dt am pa none ca cn).qifLines)
    ∧ (∀ dt am pa me cn, (QIFTransaction.mk dt am pa me (some "") cn).qifLines =
        (QIFTransaction.mk dt am pa me none cn).qifLines)
    ∧ (∀ dt am pa me ca, (QIFTransaction.mk dt am pa me ca (some "")).qifLines =
        (QIFTransaction.mk dt am pa me ca none).qifLines)
    ∧ (∀ dt act pr qt cm me am ac,
        (QIFInvestmentTransaction.mk dt act (some "") pr qt cm me am ac).qifLines =
        (QIFInvestmentTransaction.mk dt act none pr qt cm me am ac).qifLines)
    ∧ (∀ dt act sec pr qt cm me am,
        (QIFInvestmentTransaction.mk dt act sec pr qt cm me am (some "")).qifLines =
        (QIFInvestmentTransaction.mk dt act sec pr qt cm me am none).qifLines)
    ∧ (∀ dt act sec pr qt cm am ac,
        (QIFInvestmentTransaction.mk dt act sec pr qt cm (some "") am ac).qifLines =
        (QIFInvestmentTransaction.mk dt act sec pr qt cm none am ac).qifLines) :=
  ⟨fun _ _ _ _ _ => rfl, fun _ _ _ _ _ => rfl, fun _ _ _ _ _ => rfl, fun _ _ _ _ _ => rfl,
   fun _ _ _ _ _ _ _ _ => rfl, fun _ _ _ _ _ _ _ _ => rfl, fun _ _ _ _ _ _ _ _ => rfl⟩

/-- The first-match structure of `convert_date`: it returns the first
pattern's parse in try order, formatted, or the error when all five fail. -/
theorem convert_date_eq_first (s : String) :
    convert_date s =
      (match List.findSome? (fun p => tryPattern p s) datePatterns with
       | some ymd => Except.ok (formatMMDDYYYY ymd)
       | none =>
         Except.error ("Error converting date " ++ s ++ ": Unsupported date format: " ++ s)) := by
  cases h1 : tryPattern .ymdDash s with
  | some y => simp [convert_date, datePatterns, List.findSome?_cons, h1]
  | none =>
    cases h2 : tryPattern .mdySlash s with
    | some y => simp [convert_date, datePatterns, List.findSome?_cons, h1, h2]
    | none =>
      cases h3 : tryPattern .dmySlash s with
      | some y => simp [convert_date, datePatterns, List.findSome?_cons, h1, h2, h3]
      | none =>
        cases h4 : tryPattern .ymdSlash s with
        | some y => simp [convert_date, datePatterns, List.findSome?_cons, h1, h2, h3, h4]
        | none =>
          cases h5 : tryPattern .dmyDash s with
          | some y => simp [convert_date, datePatterns, List.findSome?_cons, h1, h2, h3, h4, h5]
          | none => simp [convert_date, datePatterns, List.findSome?_cons, h1, h2, h3, h4, h5]

theorem string_eta (s : String) : String.mk s.data = s := by cases s; rfl

theorem splitOnChar_no_sep (sep : Char) :
    ∀ (a : List Char), sep ∉ a → splitOnChar sep a = [a] := by
  intro a h
  induction a with
  | nil => rfl
  | cons c cs ih =>
    have hc : ¬(c = sep) := fun e => h (e ▸ List.mem_cons_self c cs)
    have ih2 := ih (fun hm => h (List.mem_cons_of_mem c hm))
    simp [splitOnChar, if_neg hc, ih2]

theorem splitOnChar_sep_append (sep : Char) :
    ∀ (a r : List Char), sep ∉ a →
      splitOnChar sep (a ++ sep :: r) = a :: splitOnChar sep r := by
  intro a
  induction a with
  | nil => intro r _; simp [splitOnChar]
  | cons c cs ih =>
    intro r h
    have hc : ¬(c = sep) := fun e => h (e ▸ List.mem_cons_self c cs)
    have ih2 := ih r (fun hm => h (List.mem_cons_of_mem c hm))
    simp [splitOnChar, if_neg hc, ih2]

theorem split3_build (sep : Char) (sepS : String) (hs : sepS.data = [sep]) (A B C : String)
    (hA : sep ∉ A.data) (hB : sep ∉ B.data) (hC : sep ∉ C.data) :
    split3 sep (A ++ sepS ++ B ++ sepS ++ C) = some (A, B, C) := by
  have hdata : (A ++ sepS ++ B ++ sepS ++ C).data =
      A.data ++ sep :: (B.data ++ sep :: C.data) := by
    simp [str_data_append, hs]
  rw [split3, hdata, splitOnChar_sep_append sep A.data _ hA,
    splitOnChar_sep_append sep B.data _ hB, splitOnChar_no_sep sep C.data hC]
  simp [string_eta]

theorem split3_none (sep : Char) (s : String) (h : sep ∉ s.data) : split3 sep s = none := by
  rw [split3, splitOnChar_no_sep sep s.data h]
  rfl

theorem not_mem_of_all_digit (p : List Char) (hall : p.all Char.isDigit = true)
    (c : Char) (hc : c.isDigit = false) : c ∉ p := by
  intro hm
  have := List.all_eq_true.mp hall c hm
  rw [hc] at this
  exact Bool.noConfusion this

example : ("ab" ++ "-" ++ "cd" ++ "-" ++ "ef" : String) = "ab-cd-ef" := by decide
example : split3 '-' ("ab" ++ "-" ++ "cd" ++ "-" ++ "ef") = some ("ab", "cd", "ef") :=
  split3_build '-' "-" rfl "ab" "cd" "ef" (by decide) (by decide) (by decide)

theorem not_mem_composite (c sep : Char) (sepS : String) (hs : sepS.data = [sep])
    (A B C : String) (hA : c ∉ A.data) (hB : c ∉ B.data) (hC : c ∉ C.data)
    (hcs : ¬(c = sep)) : c ∉ (A ++ sepS ++ B ++ sepS ++ C).data := by
  have hdata : (A ++ sepS ++ B ++ sepS ++ C).data =
      A.data ++ sep :: (B.data ++ sep :: C.data) := by
    simp [str_data_append, hs]
  rw [hdata]
  intro hmem
  simp only [List.mem_append, List.mem_cons] at hmem
  tauto

theorem matchYear_inv (p : String) (y : Nat) (h : matchYear p = some y) :
    p.length = 4 ∧ p.data.all Char.isDigit = true ∧ digitsToNat p.data = y := by
  by_cases hc : p.length = 4 ∧ p.data.all Char.isDigit
  · rw [matchYear, if_pos hc, Option.some.injEq] at h
    exact ⟨hc.1, hc.2, h⟩
  · rw [matchYear, if_neg hc] at h
    exact absurd h (by simp)

theorem matchMonth_inv (p : String) (m : Nat) (h : matchMonth p = some m) :
    (p.length = 1 ∨ p.length = 2) ∧ p.data.all Char.isDigit = true
      ∧ 1 ≤ m ∧ m ≤ 12 ∧ digitsToNat p.data = m := by
  by_cases hc : (p.length = 1 ∨ p.length = 2) ∧ p.data.all Char.isDigit
      ∧ 1 ≤ digitsToNat p.data ∧ digitsToNat p.data ≤ 12
  · simp only [matchMonth, if_pos hc, Option.some.injEq] at h
    exact ⟨hc.1, hc.2.1, h ▸ hc.2.2.1, h ▸ hc.2.2.2, h⟩
  · simp only [matchMonth, if_neg hc] at h
    exact absurd h (by simp)

theorem matchDay_inv (p : String) (d : Nat) (h : matchDay p = some d) :
    (p.length = 1 ∨ p.length = 2) ∧ p.data.all Char.isDigit = true
      ∧ 1 ≤ d ∧ d ≤ 31 ∧ digitsToNat p.data = d := by
  by_cases hc : (p.length = 1 ∨ p.length = 2) ∧ p.data.all Char.isDigit
      ∧ 1 ≤ digitsToNat p.data ∧ digitsToNat p.data ≤ 31
  · simp only [matchDay, if_pos hc, Option.some.injEq] at h
    exact ⟨hc.1, hc.2.1, h ▸ hc.2.2.1, h ▸ hc.2.2.2, h⟩
  · simp only [matchDay, if_neg hc] at h
    exact absurd h (by simp)

theorem matchMonth_none_of_ge13 (p : String) (h : 13 ≤ digitsToNat p.data) :
    matchMonth p = none := by
  simp only [matchMonth]
  rw [if_neg]
  rintro ⟨-, -, -, h12⟩
  omega

theorem matchMonth_none_of_len4 (p : String) (h : p.length = 4) : matchMonth p = none := by
  simp only [matchMonth]
  rw [if_neg]
  rintro ⟨h12 | h12, -⟩ <;> omega

theorem matchDay_none_of_len4 (p : String) (h : p.length = 4) : matchDay p = none := by
  simp only [matchDay]
  rw [if_neg]
  rintro ⟨h12 | h12, -⟩ <;> omega

theorem matchYear_none_of_short (p : String) (h : p.length = 1 ∨ p.length = 2) :
    matchYear p = none := by
  rw [matchYear, if_neg]
  rintro ⟨h4, -⟩
  rcases h with h | h <;> omega

theorem mkValidDate_eq (y m d : Nat) (h1 : 1 ≤ y) (h2 : 1 ≤ d) (h3 : d ≤ daysInMonth y m) :
    mkValidDate y m d = some (y, m, d) := by
  rw [mkValidDate, if_pos ⟨h1, h2, h3⟩]

theorem five_reps_day_ge13 (ys ms ds : String) (y m d : Nat)
    (hy : matchYear ys = some y) (hm : matchMonth ms = some m) (hd : matchDay ds = some d)
    (h1y : 1 ≤ y) (h13 : 13 ≤ d) (hdm : d ≤ daysInMonth y m) :
    convert_date (ys ++ "-" ++ ms ++ "-" ++ ds) = Except.ok (formatMMDDYYYY (y, m, d))
    ∧ convert_date (ms ++ "/" ++ ds ++ "/" ++ ys) = Except.ok (formatMMDDYYYY (y, m, d))
    ∧ convert_date (ds ++ "/" ++ ms ++ "/" ++ ys) = Except.ok (formatMMDDYYYY (y, m, d))
    ∧ convert_date (ys ++ "/" ++ ms ++ "/" ++ ds) = Except.ok (formatMMDDYYYY (y, m, d))
    ∧ convert_date (ds ++ "-" ++ ms ++ "-" ++ ys) = Except.ok (formatMMDDYYYY (y, m, d)) := by
  obtain ⟨hylen, hydig, hyval⟩ := matchYear_inv ys y hy
  obtain ⟨hmlen, hmdig, _, _, hmval⟩ := matchMonth_inv ms m hm
  obtain ⟨hdlen, hddig, _, _, hdval⟩ := matchDay_inv ds d hd
  have hynd : '-' ∉ ys.data := not_mem_of_all_digit _ hydig '-' (by decide)
  have hmnd : '-' ∉ ms.data := not_mem_of_all_digit _ hmdig '-' (by decide)
  have hdnd : '-' ∉ ds.data := not_mem_of_all_digit _ hddig '-' (by decide)
  have hyns : '/' ∉ ys.data := not_mem_of_all_digit _ hydig '/' (by decide)
  have hmns : '/' ∉ ms.data := not_mem_of_all_digit _ hmdig '/' (by decide)
  have hdns : '/' ∉ ds.data := not_mem_of_all_digit _ hddig '/' (by decide)
  have hvalid : mkValidDate y m d = some (y, m, d) := mkValidDate_eq y m d h1y (by omega) hdm
  have hmds : matchMonth ds = none := matchMonth_none_of_ge13 ds (by rw [hdval]; exact h13)
  refine ⟨?_, ?_, ?_, ?_, ?_⟩
  · -- YYYY-MM-DD: first pattern matches
    have e1 : split3 '-' (ys ++ "-" ++ ms ++ "-" ++ ds) = some (ys, ms, ds) :=
      split3_build '-' "-" rfl ys ms ds hynd hmnd hdnd
    have t1 : tryPattern .ymdDash (ys ++ "-" ++ ms ++ "-" ++ ds) = some (y, m, d) := by
      simp only [tryPattern, e1, Option.bind_eq_bind, Option.some_bind, hy, hm, hd, hvalid]
    simp only [convert_date, t1]
  · -- MM/DD/YYYY: dash pattern fails, then second pattern matches
    have hnod : '-' ∉ (ms ++ "/" ++ ds ++ "/" ++ ys).data :=
      not_mem_composite '-' '/' "/" rfl ms ds ys hmnd hdnd hynd (by decide)
    have t1 : tryPattern .ymdDash (ms ++ "/" ++ ds ++ "/" ++ ys) = none := by
      simp only [tryPattern, split3_none '-' _ hnod, Option.bind_eq_bind, Option.none_bind]
    have e2 : split3 '/' (ms ++ "/" ++ ds ++ "/" ++ ys) = some (ms, ds, ys) :=
      split3_build '/' "/" rfl ms ds ys hmns hdns hyns
    have t2 : tryPattern .mdySlash (ms ++ "/" ++ ds ++ "/" ++ ys) = some (y, m, d) := by
      simp only [tryPattern, e2, Option.bind_eq_bind, Option.some_bind, hy, hm, hd, hvalid]
    simp only [convert_date, t1, t2]
  · -- DD/MM/YYYY: dash fails, MM/DD rejects the day (≥ 13) as month, DD/MM matches
    have hnod : '-' ∉ (ds ++ "/" ++ ms ++ "/" ++ ys).data :=
      not_mem_composite '-' '/' "/" rfl ds ms ys hdnd hmnd hynd (by decide)
    have t1 : tryPattern .ymdDash (ds ++ "/" ++ ms ++ "/" ++ ys) = none := by
      simp only [tryPattern, split3_none '-' _ hnod, Option.bind_eq_bind, Option.none_bind]
    have e3 : split3 '/' (ds ++ "/" ++ ms ++ "/" ++ ys) = some (ds, ms, ys) :=
      split3_build '/' "/" rfl ds ms ys hdns hmns hyns
    have t2 : tryPattern .mdySlash (ds ++ "/" ++ ms ++ "/" ++ ys) = none := by
      simp only [tryPattern, e3, Option.bind_eq_bind, Option.some_bind, Option.none_bind, hmds]
    have t3 : tryPattern .dmySlash (ds ++ "/" ++ ms ++ "/" ++ ys) = some (y, m, d) := by
      simp only [tryPattern, e3, Option.bind_eq_bind, Option.some_bind, hy, hm, hd, hvalid]
    simp only [convert_date, t1, t2, t3]
  · -- YYYY/MM/DD: dash fails, the 4-digit year is neither month nor day, then matches
    have hnod : '-' ∉ (ys ++ "/" ++ ms ++ "/" ++ ds).data :=
      not_mem_composite '-' '/' "/" rfl ys ms ds hynd hmnd hdnd (by decide)
    have t1 : tryPattern .ymdDash (ys ++ "/" ++ ms ++ "/" ++ ds) = none := by
      simp only [tryPattern, split3_none '-' _ hnod, Option.bind_eq_bind, Option.none_bind]
    have e4 : split3 '/' (ys ++ "/" ++ ms ++ "/" ++ ds) = some (ys, ms, ds) :=
      split3_build '/' "/" rfl ys ms ds hyns hmns hdns
    have t2 : tryPattern .mdySlash (ys ++ "/" ++ ms ++ "/" ++ ds) = none := by
      simp only [tryPattern, e4, Option.bind_eq_bind, Option.some_bind, Option.none_bind,
        matchMonth_none_of_len4 ys hylen]
    have t3 : tryPattern .dmySlash (ys ++ "/" ++ ms ++ "/" ++ ds) = none := by
      simp only [tryPattern, e4, Option.bind_eq_bind, Option.some_bind, Option.none_bind,
        matchDay_none_of_len4 ys hylen]
    have t4 : tryPattern .ymdSlash (ys ++ "/" ++ ms ++ "/" ++ ds) = some (y, m, d) := by
      simp only [tryPattern, e4, Option.bind_eq_bind, Option.some_bind, hy, hm, hd, hvalid]
    simp only [convert_date, t1, t2, t3, t4]
  · -- DD-MM-YYYY: the 1–2 digit day is no year, the slash patterns find no slash, then matches
    have hnos : '/' ∉ (ds ++ "-" ++ ms ++ "-" ++ ys).data :=
      not_mem_composite '/' '-' "-" rfl ds ms ys hdns hmns hyns (by decide)
    have e5 : split3 '-' (ds ++ "-" ++ ms ++ "-" ++ ys) = some (ds, ms, ys) :=
      split3_build '-' "-" rfl ds ms ys hdnd hmnd hynd
    have t1 : tryPattern .ymdDash (ds ++ "-" ++ ms ++ "-" ++ ys) = none := by
      simp only [tryPattern, e5, Option.bind_eq_bind, Option.some_bind, Option.none_bind,
        matchYear_none_of_short ds hdlen]
    have t2 : tryPattern .mdySlash (ds ++ "-" ++ ms ++ "-" ++ ys) = none := by
      simp only [tryPattern, split3_none '/' _ hnos, Option.bind_eq_bind, Option.none_bind]
    have t3 : tryPattern .dmySlash (ds ++ "-" ++ ms ++ "-" ++ ys) = none := by
      simp only [tryPattern, split3_none '/' _ hnos, Option.bind_eq_bind, Option.none_bind]
    have t4 : tryPattern .ymdSlash (ds ++ "-" ++ ms ++ "-" ++ ys) = none := by
      simp only [tryPattern, split3_none '/' _ hnos, Option.bind_eq_bind, Option.none_bind]
    have t5 : tryPattern .dmyDash (ds ++ "-" ++ ms ++ "-" ++ ys) = some (y, m, d) := by
      simp only [tryPattern, e5, Option.bind_eq_bind, Option.some_bind, hy, hm, hd, hvalid]
    simp only [convert_date, t1, t2, t3, t4, t5]

/-- C4 (confirmed): `convert_date` tries the five patterns in the fixed
order `YYYY-MM-DD`, `MM/DD/YYYY`, `DD/MM/YYYY`, `YYYY/MM/DD`, `DD-MM-YYYY`
(the order of `datePatterns`) and the first pattern that parses wins; in
particular `"01/02/2024"` parses under both slash patterns, and the
`MM/DD/YYYY` reading (month 1, day 2) wins over the `DD/MM/YYYY` reading
(month 2, day 1); every string matching none of the five patterns yields
the date-format error carrying the offending string. -/
theorem convertDate_first_pattern_wins :
    (∀ s, convert_date s =
      (match List.findSome? (fun p => tryPattern p s) datePatterns with
       | some ymd => Except.ok (formatMMDDYYYY ymd)
       | none =>
         Except.error ("Error converting date " ++ s ++ ": Unsupported date format: " ++ s)))
    ∧ (∀ s, (∀ p ∈ datePatterns, tryPattern p s = none) →
        convert_date s =
          Except.error ("Error converting date " ++ s ++ ": Unsupported date format: " ++ s))
    ∧ tryPattern .mdySlash "01/02/2024" = some (2024, 1, 2)
    ∧ tryPattern .dmySlash "01/02/2024" = some (2024, 2, 1)
    ∧ convert_date "01/02/2024" = Except.ok "01/02/2024" := by
  refine ⟨convert_date_eq_first, ?_, by decide, by decide, by decide⟩
  intro s h
  rw [convert_date_eq_first s]
  have : List.findSome? (fun p => tryPattern p s) datePatterns = none := by
    simp [datePatterns, List.findSome?_cons, h .ymdDash (by decide), h .mdySlash (by decide),
      h .dmySlash (by decide), h .ymdSlash (by decide), h .dmyDash (by decide)]
  rw [this]

/-- C4 witness: `"invalid"` matches no pattern and produces the error
carrying the offending string. -/
theorem convertDate_first_pattern_wins_witness :
    (∀ p ∈ datePatterns, tryPattern p "invalid" = none)
    ∧ convert_date "invalid" =
        Except.error "Error converting date invalid: Unsupported date format: invalid" :=
  ⟨by decide, convertDate_first_pattern_wins.2.1 "invalid" (by decide)⟩

/-- C7 counterexample: `"2024-02-01"` (pattern `YYYY-MM-DD`) and
`"01/02/2024"` (pattern `DD/MM/YYYY`) both represent the calendar date
February 1, 2024 — witnessed by `tryPattern` parsing each under its
pattern to `(2024, 2, 1)` — yet `convert_date` maps them to different
outputs (`"02/01/2024"` vs `"01/02/2024"`), because the ambiguous second
string is captured first by the `MM/DD/YYYY` pattern.  The claim that all
five-pattern representations of one calendar date normalize identically is
therefore false. -/
theorem convertDate_same_date_differs_cex :
    tryPattern .ymdDash "2024-02-01" = some (2024, 2, 1)
    ∧ tryPattern .dmySlash "01/02/2024" = some (2024, 2, 1)
    ∧ convert_date "2024-02-01" = Except.ok "02/01/2024"
    ∧ convert_date "01/02/2024" = Except.ok "01/02/2024"
    ∧ convert_date "2024-02-01" ≠ convert_date "01/02/2024" := by decide

/-- C7 (corrected): the five-pattern identity holds exactly as far as the
first-match policy allows.  (1) Any two accepted strings whose FIRST
matching pattern (in try order) yields the same `(year, month, day)`
produce the identical `MM/DD/YYYY` output.  (2) For every calendar date
with day at least 13 — where the `MM/DD/YYYY` pattern cannot capture a
day-first spelling — the identity of the original claim does hold in
full: all five pattern spellings of the date (with any accepted year,
month and day component spellings) normalize to the identical
`MM/DD/YYYY` output.  The identity fails only through the cross-pattern
ambiguity of the counterexample, i.e. for day ≤ 12. -/
theorem convertDate_output_of_first_match :
    (∀ (s1 s2 : String) (ymd : Nat × Nat × Nat),
      List.findSome? (fun p => tryPattern p s1) datePatterns = some ymd →
      List.findSome? (fun p => tryPattern p s2) datePatterns = some ymd →
      convert_date s1 = convert_date s2 ∧ convert_date s1 = Except.ok (formatMMDDYYYY ymd))
    ∧ (∀ (ys ms ds : String) (y m d : Nat),
      matchYear ys = some y → matchMonth ms = some m → matchDay ds = some d →
      1 ≤ y → 13 ≤ d → d ≤ daysInMonth y m →
      convert_date (ys ++ "-" ++ ms ++ "-" ++ ds) = Except.ok (formatMMDDYYYY (y, m, d))
      ∧ convert_date (ms ++ "/" ++ ds ++ "/" ++ ys) = Except.ok (formatMMDDYYYY (y, m, d))
      ∧ convert_date (ds ++ "/" ++ ms ++ "/" ++ ys) = Except.ok (formatMMDDYYYY (y, m, d))
      ∧ convert_date (ys ++ "/" ++ ms ++ "/" ++ ds) = Except.ok (formatMMDDYYYY (y, m, d))
      ∧ convert_date (ds ++ "-" ++ ms ++ "-" ++ ys) = Except.ok (formatMMDDYYYY (y, m, d))) := by
  constructor
  · intro s1 s2 ymd h1 h2
    rw [convert_date_eq_first s1, convert_date_eq_first s2, h1, h2]
    exact ⟨rfl, rfl⟩
  · exact five_reps_day_ge13

/-- C7 witness: `"2024-02-01"` and `"02/01/2024"` are both first-matched to
February 1, 2024 and normalize to the same output; and the five spellings
of February 14, 2024 (day ≥ 13) all normalize to `"02/14/2024"`. -/
theorem convertDate_output_of_first_match_witness :
    ((List.findSome? (fun p => tryPattern p "2024-02-01") datePatterns = some (2024, 2, 1)
        ∧ List.findSome? (fun p => tryPattern p "02/01/2024") datePatterns = some (2024, 2, 1))
      ∧ convert_date "2024-02-01" = convert_date "02/01/2024")
    ∧ (matchYear "2024" = some 2024 ∧ matchMonth "02" = some 2 ∧ matchDay "14" = some 14
        ∧ 13 ≤ 14 ∧ 14 ≤ daysInMonth 2024 2)
    ∧ convert_date ("2024" ++ "-" ++ "02" ++ "-" ++ "14") = Except.ok "02/14/2024"
    ∧ convert_date ("14" ++ "/" ++ "02" ++ "/" ++ "2024") = Except.ok "02/14/2024"
    ∧ convert_date ("14" ++ "-" ++ "02" ++ "-" ++ "2024") = Except.ok "02/14/2024" :=
  ⟨⟨⟨by decide, by decide⟩,
    (convertDate_output_of_first_match.1 "2024-02-01" "02/01/2024" (2024, 2, 1)
      (by decide) (by decide)).1⟩,
   ⟨by decide, by decide, by decide, by decide, by decide⟩,
   (convertDate_output_of_first_match.2 "2024" "02" "14" 2024 2 14 (by decide) (by decide)
      (by decide) (by decide) (by decide) (by decide)).1.trans (by decide),
   (convertDate_output_of_first_match.2 "2024" "02" "14" 2024 2 14 (by decide) (by decide)
      (by decide) (by decide) (by decide) (by decide)).2.2.1.trans (by decide),
   (convertDate_output_of_first_match.2 "2024" "02" "14" 2024 2 14 (by decide) (by decide)
      (by decide) (by decide) (by decide) (by decide)).2.2.2.2.trans (by decide)⟩

/-- The loop appends exactly the chunks of the successfully processed rows,
in input row order, and collects exactly the failed rows as skipped. -/
theorem convertLoop_eq (ttype : String) (mapping : FieldMapping) (rows : List CsvRow) :
    ∀ file, convertLoop ttype mapping rows file =
      (file ++ concatChunks (rows.filterMap (processRow ttype mapping)),
       rows.filter (fun r => (processRow ttype mapping r).isNone)) := by
  induction rows with
  | nil => intro file; simp [convertLoop, concatChunks]
  | cons r rs ih =>
    intro file
    cases h : processRow ttype mapping r with
    | some chunk =>
      simp [convertLoop, h, ih, concatChunks, List.filterMap_cons, List.filter_cons,
        String.append_assoc]
    | none =>
      simp [convertLoop, h, ih, concatChunks, List.filterMap_cons, List.filter_cons]

/-- A successful `csv_to_qif` call: header first, then the blocks of the
successfully processed rows in input order, appended after the existing
content. -/
theorem csv_to_qif_ok (rows : List CsvRow) (ttype : String) (mapping : FieldMapping)
    (file0 : String) (h : requiredMissing ttype mapping = []) :
    csv_to_qif rows ttype mapping file0 =
      ⟨Except.ok (),
       file0 ++ ((if ttype = "investment" then QIFType.investment else QIFType.bank).value ++ "\n")
         ++ concatChunks (rows.filterMap (processRow ttype mapping)),
       rows.filter (fun r => (processRow ttype mapping r).isNone)⟩ := by
  simp [csv_to_qif, h, convertLoop_eq]

/-- C2 (confirmed): a mapping lacking any field required for the chosen
transaction type (`date`/`action`/`security` for investment, or
`date`/`amount` otherwise) makes `csv_to_qif` raise the `KeyError`
before any CSV row is read — the outcome is the same for every row list —
and nothing, not even the header line, is written: the destination
content stays `file0`. -/
theorem csvToQif_missing_required_fatal (ttype f : String) (mapping : FieldMapping)
    (hf : f ∈ required_fields ttype) (hm : List.lookup f mapping = none) :
    ∀ (rows : List CsvRow) (file0 : String),
      csv_to_qif rows ttype mapping file0 =
        ⟨Except.error ("Missing required fields in mapping: "
            ++ joinWith ", " (requiredMissing ttype mapping)), file0, []⟩ := by
  intro rows file0
  have hne : requiredMissing ttype mapping ≠ [] := by
    intro h0
    have hmem : f ∈ requiredMissing ttype mapping := by
      simp [requiredMissing, List.mem_filter, hf, hm]
    rw [h0] at hmem
    exact absurd hmem (List.not_mem_nil f)
  simp [csv_to_qif, if_neg hne]

/-- C2 witness: an investment mapping lacking `security` fails with the
configuration error and leaves the destination (seeded with `"seed"`)
untouched. -/
theorem csvToQif_missing_required_fatal_witness :
    ("security" ∈ required_fields "investment"
      ∧ List.lookup "security" [("date", "Trade Date"), ("action", "Transaction Type")] = none)
    ∧ csv_to_qif [exGoodRow] "investment"
        [("date", "Trade Date"), ("action", "Transaction Type")] "seed" =
      ⟨Except.error "Missing required fields in mapping: security", "seed", []⟩ :=
  ⟨⟨by decide, by decide⟩, by
    have h := csvToQif_missing_required_fatal "investment" "security"
      [("date", "Trade Date"), ("action", "Transaction Type")] (by decide) (by decide)
      [exGoodRow] "seed"
    exact h.trans (by decide)⟩

/-- C3 (confirmed): rows that fail (date normalization, numeric parse, or
a required column missing from the row — every `ValueError`/`KeyError`
of the row body) are skipped and collected, never fatal: the call
succeeds and the output is the header followed by the blocks of exactly
the successfully processed rows, in input row order.  In particular the
concrete two-row batch (one well-formed row, one with price `"abc"`)
produces exactly one record block. -/
theorem csvToQif_row_errors_skipped :
    (∀ (ttype : String) (mapping : FieldMapping) (rows : List CsvRow) (file0 : String),
      requiredMissing ttype mapping = [] →
      csv_to_qif rows ttype mapping file0 =
        ⟨Except.ok (),
         file0 ++ ((if ttype = "investment" then QIFType.investment else QIFType.bank).value
           ++ "\n") ++ concatChunks (rows.filterMap (processRow ttype mapping)),
         rows.filter (fun r => (processRow ttype mapping r).isNone)⟩)
    ∧ csv_to_qif [exGoodRow, exBadRow] "investment" exMapping "" =
        ⟨Except.ok (),
         "!Type:Invst\nD01/15/2024\nNBuy\nYAAPL\nI185.9200\nQ10.0000\nO4.95\nMInitial position\n^\n",
         [exBadRow]⟩ :=
  ⟨fun ttype mapping rows file0 h => csv_to_qif_ok rows ttype mapping file0 h, by decide⟩

/-- C3 witness: the general statement instantiated at the two-row batch. -/
theorem csvToQif_row_errors_skipped_witness :
    requiredMissing "investment" exMapping = []
    ∧ csv_to_qif [exGoodRow, exBadRow] "investment" exMapping "x" =
        ⟨Except.ok (),
         "x!Type:Invst\nD01/15/2024\nNBuy\nYAAPL\nI185.9200\nQ10.0000\nO4.95\nMInitial position\n^\n",
         [exBadRow]⟩ :=
  ⟨by decide, by
    have h := csvToQif_row_errors_skipped.1 "investment" exMapping [exGoodRow, exBadRow] "x"
      (by decide)
    exact h.trans (by decide)⟩

/-- C9 (confirmed): a successful call writes the type header exactly once,
first, before any transaction block (the destination gains the header
followed by the record blocks); all writes append, so the result is
prefix-independent — a call against content `file0` yields `file0`
followed by what the same call writes to an empty destination — and two
successive calls produce the concatenation of the two single-call
outputs: two headers and duplicated records, not an idempotent result. -/
theorem csvToQif_header_once_append_semantics :
    (∀ (ttype : String) (mapping : FieldMapping) (rows : List CsvRow) (file0 : String),
      requiredMissing ttype mapping = [] →
      (csv_to_qif rows ttype mapping file0).file =
        file0 ++ ((if ttype = "investment" then QIFType.investment else QIFType.bank).value
          ++ "\n") ++ concatChunks (rows.filterMap (processRow ttype mapping)))
    ∧ (∀ (ttype : String) (mapping : FieldMapping) (rows : List CsvRow) (file0 : String),
      requiredMissing ttype mapping = [] →
      (csv_to_qif rows ttype mapping file0).file =
        file0 ++ (csv_to_qif rows ttype mapping "").file)
    ∧ (∀ (t1 : String) (m1 : FieldMapping) (rows1 : List CsvRow)
        (t2 : String) (m2 : FieldMapping) (rows2 : List CsvRow),
      requiredMissing t1 m1 = [] → requiredMissing t2 m2 = [] →
      (csv_to_qif rows2 t2 m2 ((csv_to_qif rows1 t1 m1 "").file)).file =
        (csv_to_qif rows1 t1 m1 "").file ++ (csv_to_qif rows2 t2 m2 "").file) := by
  refine ⟨?_, ?_, ?_⟩
  · intro ttype mapping rows file0 h
    rw [csv_to_qif_ok rows ttype mapping file0 h]
  · intro ttype mapping rows file0 h
    rw [csv_to_qif_ok rows ttype mapping file0 h, csv_to_qif_ok rows ttype mapping "" h]
    simp [String.append_assoc]
  · intro t1 m1 rows1 t2 m2 rows2 h1 h2
    rw [csv_to_qif_ok rows1 t1 m1 "" h1]
    rw [csv_to_qif_ok rows2 t2 m2 _ h2, csv_to_qif_ok rows2 t2 m2 "" h2]
    simp [String.append_assoc]

/-- C9 witness: running the same one-row conversion twice against the same
destination doubles the content — header and record duplicated. -/
theorem csvToQif_header_once_append_semantics_witness :
    requiredMissing "investment" exMapping = []
    ∧ (csv_to_qif [exGoodRow] "investment" exMapping
        ((csv_to_qif [exGoodRow] "investment" exMapping "").file)).file =
      (csv_to_qif [exGoodRow] "investment" exMapping "").file
        ++ (csv_to_qif [exGoodRow] "investment" exMapping "").file :=
  ⟨by decide,
    csvToQif_header_once_append_semantics.2.2 "investment" exMapping [exGoodRow]
      "investment" exMapping [exGoodRow] (by decide) (by decide)⟩

/-- C5 counterexample: with `price` absent from the mapping, a well-formed
row is NOT converted with `price = None` — `mapping['price']` raises
`KeyError` inside the row body, so the row is skipped and the batch
output holds no record at all, only the header. -/
theorem investment_unmapped_price_skips_cex :
    convertInvestmentRow priceUnmappedMapping wellFormedRow = none
    ∧ csv_to_qif [wellFormedRow] "investment" priceUnmappedMapping "" =
        ⟨Except.ok (), "!Type:Invst\n", [wellFormedRow]⟩
    ∧ (convert_date "2024-01-15").toOption.isSome = true
    ∧ parseFloat "10" = some ⟨10, 0⟩ := by decide

set_option maxHeartbeats 1600000 in
/-- C5 (corrected): only `commission` and `amount` tolerate a key missing
from the mapping (they are guarded by `'key' in mapping` and become
absent); a mapping without `price` or `quantity` instead raises a
`KeyError` for every row, which the loop catches as a per-row skip.  An
empty or absent row value for a mapped numeric column still yields an
absent attribute, and a non-empty value that fails to parse skips the
row. -/
theorem investment_optional_numeric_fields :
    (∀ (mapping : FieldMapping) (row : CsvRow),
      (List.lookup "price" mapping = none ∨ List.lookup "quantity" mapping = none) →
      convertInvestmentRow mapping row = none)
    ∧ (∀ (mapping : FieldMapping) (row : CsvRow) (t : QIFInvestmentTransaction),
      convertInvestmentRow mapping row = some t →
      List.lookup "commission" mapping = none → t.commission = none)
    ∧ (∀ (mapping : FieldMapping) (row : CsvRow) (t : QIFInvestmentTransaction),
      convertInvestmentRow mapping row = some t →
      List.lookup "amount" mapping = none → t.amount = none)
    ∧ (∀ (mapping : FieldMapping) (row : CsvRow) (t : QIFInvestmentTransaction)
        (col : String),
      List.lookup "price" mapping = some col →
      (List.lookup col row = some "" ∨ List.lookup col row = none) →
      convertInvestmentRow mapping row = some t → t.price = none)
    ∧ (∀ (mapping : FieldMapping) (row : CsvRow) (col v : String),
      List.lookup "price" mapping = some col → List.lookup col row = some v →
      v ≠ "" → parseFloat v = none → convertInvestmentRow mapping row = none) := by
  refine ⟨?_, ?_, ?_, ?_, ?_⟩
  · intro mapping row h
    rcases h with hp | hq
    · simp only [convertInvestmentRow, hp, Option.bind_eq_bind, Option.none_bind]
    · cases hp : List.lookup "price" mapping with
      | none => simp only [convertInvestmentRow, hp, Option.bind_eq_bind, Option.none_bind]
      | some pcol =>
        cases hc : optFloatOfCell (List.lookup pcol row) with
        | none =>
          simp only [convertInvestmentRow, hp, hc, Option.bind_eq_bind, Option.some_bind,
            Option.none_bind]
        | some pv =>
          simp only [convertInvestmentRow, hp, hc, hq, Option.bind_eq_bind, Option.some_bind,
            Option.none_bind]
  · intro mapping row t h hcomm
    simp only [convertInvestmentRow, Option.bind_eq_bind, Option.bind_eq_some,
      Option.pure_def, Option.some.injEq] at h
    obtain ⟨pcol, hp, pv, hpv, qcol, hq, qv, hqv, cv, hcv, av, hav, dcol, hd, draw, hdraw,
      date, hdate, acol, ha, act, hact, scol, hs, sec, hsec, mv, hmv, ht⟩ := h
    rw [numFieldGuarded, hcomm, Option.some.injEq] at hcv
    rw [← ht]
    exact hcv.symm
  · intro mapping row t h hamt
    simp only [convertInvestmentRow, Option.bind_eq_bind, Option.bind_eq_some,
      Option.pure_def, Option.some.injEq] at h
    obtain ⟨pcol, hp, pv, hpv, qcol, hq, qv, hqv, cv, hcv, av, hav, dcol, hd, draw, hdraw,
      date, hdate, acol, ha, act, hact, scol, hs, sec, hsec, mv, hmv, ht⟩ := h
    rw [numFieldGuarded, hamt, Option.some.injEq] at hav
    rw [← ht]
    exact hav.symm
  · intro mapping row t col hcol hcell h
    simp only [convertInvestmentRow, Option.bind_eq_bind, Option.bind_eq_some,
      Option.pure_def, Option.some.injEq] at h
    obtain ⟨pcol, hp, pv, hpv, qcol, hq, qv, hqv, cv, hcv, av, hav, dcol, hd, draw, hdraw,
      date, hdate, acol, ha, act, hact, scol, hs, sec, hsec, mv, hmv, ht⟩ := h
    rw [hcol, Option.some.injEq] at hp
    subst hp
    rcases hcell with hcell | hcell <;>
      rw [hcell] at hpv <;> rw [optFloatOfCell] at hpv <;> simp at hpv <;>
        rw [← ht] <;> exact hpv.symm
  · intro mapping row col v hcol hcell hv hparse
    simp only [convertInvestmentRow, hcol, hcell, optFloatOfCell, if_neg hv, hparse,
      Option.bind_eq_bind, Option.some_bind, Option.none_bind]

/-- C5 witness: the first conjunct at the concrete price-less mapping. -/
theorem investment_optional_numeric_fields_witness :
    List.lookup "price" priceUnmappedMapping = none
    ∧ convertInvestmentRow priceUnmappedMapping wellFormedRow = none :=
  ⟨by decide,
    investment_optional_numeric_fields.1 priceUnmappedMapping wellFormedRow (Or.inl (by decide))⟩
